import Mathlib

/-!
Shallow embedding of the single-endpoint IP information API
(src/ipinfo.js).  The JavaScript handler and all of its pure helper
functions are translated into executable Lean definitions.  JavaScript
value conventions that the source relies on (falsy values, NaN
comparisons, undefined lookups, key dropping during JSON
serialization) are modelled explicitly by small helper functions.
-/

set_option maxHeartbeats 1000000

namespace IpInfo

/-! ## JavaScript value conventions -/

/-- Truthiness of an optional string: JavaScript treats `undefined` and
the empty string as falsy. -/
def jsTruthyStr : Option String → Bool
  | none => false
  | some s => !(s = "")

/-- String interpolation of an optional string: an absent value prints
as the literal text `undefined`, as in a JS template literal. -/
def jsStr : Option String → String
  | none => "undefined"
  | some s => s

/-- The JS `a || b` idiom on an optional string with a default: the
default is used when the value is absent or empty (falsy). -/
def jsStrOr (v : Option String) (dflt : String) : String :=
  if jsTruthyStr v then jsStr v else dflt

/-- String interpolation of an optional rational number (latitude,
longitude).  An absent value prints as `undefined`.  The decimal
rendering of a present number is abstracted by `toString` on `Rat`;
no claim inspects these rendered digits. -/
def jsNumStr : Option Rat → String
  | none => "undefined"
  | some q => toString q

/-- Split a character list at every dot, as `String.prototype.split`
with separator "." does: n dots produce n+1 groups, empty groups
included. -/
def splitDot : List Char → List (List Char)
  | [] => [[]]
  | c :: cs =>
    if c = '.' then [] :: splitDot cs
    else
      match splitDot cs with
      | [] => [[c]]
      | g :: gs => (c :: g) :: gs

/-- Decimal value of a digit character. -/
def digitVal (c : Char) : Nat := c.toNat - 48

/-- Decimal value of a list of digit characters. -/
def digitsToNat (cs : List Char) : Nat :=
  cs.foldl (fun acc c => acc * 10 + digitVal c) 0

/-- Model of the JS `Number(s)` conversion on the strings this code
feeds it (the dot-separated groups of a candidate address): the empty
string converts to 0, a string of decimal digits to its value, and
anything else to NaN, modelled as `none`. -/
def jsNumber (cs : List Char) : Option Nat :=
  if cs = [] then some 0
  else if cs.all Char.isDigit then some (digitsToNat cs) else none

/-- Model of the JS `parseInt(s)` conversion on the strings this code
feeds it: the longest prefix of decimal digits is converted; when that
prefix is empty the result is NaN, modelled as `none`. -/
def jsParseInt (cs : List Char) : Option Nat :=
  let ds := cs.takeWhile Char.isDigit
  if ds = [] then none else some (digitsToNat ds)

/-- JS `===` comparison between a possibly-undefined, possibly-NaN
numeric value and a number literal: any comparison against undefined or
NaN is false.  The outer `Option` is an absent array slot (undefined),
the inner one a failed numeric conversion (NaN). -/
def jsEqV (v : Option (Option Nat)) (n : Nat) : Bool :=
  match v with
  | some (some a) => a == n
  | _ => false

/-- JS `>=` under the same conventions: false for undefined and NaN. -/
def jsGeV (v : Option (Option Nat)) (n : Nat) : Bool :=
  match v with
  | some (some a) => n ≤ a
  | _ => false

/-- JS `<=` under the same conventions: false for undefined and NaN. -/
def jsLeV (v : Option (Option Nat)) (n : Nat) : Bool :=
  match v with
  | some (some a) => a ≤ n
  | _ => false

/-- JS `<=` between a possibly-NaN number and a literal. -/
def jsLe (v : Option Nat) (n : Nat) : Bool :=
  match v with
  | some a => a ≤ n
  | _ => false

/-- Case-insensitive-free substring test, as `String.prototype.includes`:
true when the needle occurs contiguously in the haystack. -/
def jsIncludesL (hay needle : List Char) : Bool :=
  needle.isPrefixOf hay ||
    match hay with
    | [] => false
    | _ :: t => jsIncludesL t needle

/-- `String.prototype.includes` on strings. -/
def jsIncludes (hay needle : String) : Bool :=
  jsIncludesL hay.data needle.data

/-- `String.prototype.toLowerCase`, on the ASCII alphabet used by the
keyword tables of the source. -/
def jsToLower (s : String) : String :=
  String.mk (s.data.map Char.toLower)

/-! ## The address validator

The source validates with the regular expression
`^(?:[0-9]{1,3}\.){3}[0-9]{1,3}$` (src/ipinfo.js line 39).  The matcher
below follows the structure of that expression: three repetitions of
(one-to-three digits, then a dot), then one-to-three digits, then end
of input.  The `{1,3}` repetition is consumed greedily; since the
character after each group is a dot, never a digit, greedy matching
coincides with backtracking here, and the characterization theorem
proved below certifies the recognized language exactly. -/

/-- Consume one to three leading digits (greedily), returning the rest
of the input, or fail when the input does not start with a digit. -/
def matchGroup : List Char → Option (List Char)
  | [] => none
  | a :: t =>
    if a.isDigit then
      match t with
      | [] => some []
      | b :: t2 =>
        if b.isDigit then
          match t2 with
          | [] => some []
          | c :: t3 => if c.isDigit then some t3 else some t2
        else some t
    else none

/-- The validator regex on a character list: four digit groups
separated by dots, nothing else. -/
def ipRegexTestL (cs : List Char) : Bool :=
  match matchGroup cs with
  | some ('.' :: r1) =>
    match matchGroup r1 with
    | some ('.' :: r2) =>
      match matchGroup r2 with
      | some ('.' :: r3) =>
        match matchGroup r3 with
        | some [] => true
        | _ => false
      | _ => false
    | _ => false
  | _ => false

/-- `ipRegex.test(ip)` of the source. -/
def ipRegexTest (s : String) : Bool := ipRegexTestL s.data

/-- A group of one to three decimal digits, stated from the wording of
the specification. -/
def IsDigitGroup (g : List Char) : Prop :=
  g ≠ [] ∧ g.length ≤ 3 ∧ ∀ c ∈ g, c.isDigit = true

/-- The shape the specification describes: four dot-separated groups of
one to three decimal digits.  This definition follows the words of the
spec and is compared against the source regex by a theorem below. -/
def DottedQuadShape (s : String) : Prop :=
  ∃ g1 g2 g3 g4 : List Char,
    IsDigitGroup g1 ∧ IsDigitGroup g2 ∧ IsDigitGroup g3 ∧ IsDigitGroup g4 ∧
    s.data = g1 ++ '.' :: (g2 ++ '.' :: (g3 ++ '.' :: g4))

/-! ## Octet classifiers (pure helpers of the source) -/

/-- `ip.split('.')` then `.map(Number)`, the shared prelude of
`isPrivateIP`, `isReservedIP` and `isBogonIP`. -/
def getParts (ip : String) : List (Option Nat) :=
  (splitDot ip.data).map jsNumber

/-- `parseInt(ip.split('.')[0])`, the shared prelude of `getIPType`,
`classifyNetwork` and `classifyNetworkSize`.  The split of any string
is nonempty, so the index-0 access always finds a group. -/
def firstOctet (ip : String) : Option Nat :=
  jsParseInt ((splitDot ip.data).headD [])

/-- `getIPType` of the source: classification by first octet, with NaN
failing every comparison and therefore falling through to Class E. -/
def getIPType (ip : String) : String :=
  let fo := firstOctet ip
  if jsLe fo 127 then "Class A 🏢 (Large networks)"
  else if jsLe fo 191 then "Class B 🏢 (Medium networks)"
  else if jsLe fo 223 then "Class C 🏠 (Small networks)"
  else if jsLe fo 239 then "Class D 📡 (Multicast)"
  else "Class E 🔧 (Experimental)"

/-- `isPrivateIP` of the source. -/
def isPrivateIP (ip : String) : Bool :=
  let parts := getParts ip
  jsEqV (parts.get? 0) 10 ||
    (jsEqV (parts.get? 0) 172 && jsGeV (parts.get? 1) 16 && jsLeV (parts.get? 1) 31) ||
    (jsEqV (parts.get? 0) 192 && jsEqV (parts.get? 1) 168)

/-- `isReservedIP` of the source. -/
def isReservedIP (ip : String) : Bool :=
  let parts := getParts ip
  jsEqV (parts.get? 0) 0 || jsGeV (parts.get? 0) 224

/-- `isBogonIP` of the source. -/
def isBogonIP (ip : String) : Bool :=
  let parts := getParts ip
  jsEqV (parts.get? 0) 127 ||
    (jsEqV (parts.get? 0) 169 && jsEqV (parts.get? 1) 254)

/-- `assessRisk` of the source. -/
def assessRisk (ip : String) : String :=
  if isPrivateIP ip then "🟢 Safe (Private Network)"
  else if isReservedIP ip then "🟡 Caution (Reserved IP)"
  else if isBogonIP ip then "🟡 Warning (Bogon IP)"
  else "🟡 Moderate (Public IP)"

/-- `getSecurityRecommendations` of the source. -/
def getSecurityRecommendations (ip : String) : List String :=
  if isPrivateIP ip then ["✅ Safe for internal networks"]
  else if isReservedIP ip then ["⚠️ This IP range is reserved"]
  else ["🔒 Use firewall protection", "🛡️ Enable security monitoring", "🌐 Use VPN for privacy"]

/-! ## ISP, table and geometry helpers of the source -/

/-- `classifyISP` of the source. -/
def classifyISP (isp : Option String) : String :=
  if !jsTruthyStr isp then "Unknown"
  else
    let ispLower := jsToLower (jsStr isp)
    if jsIncludes ispLower "mobile" || jsIncludes ispLower "wireless" then "📱 Mobile Carrier"
    else if jsIncludes ispLower "comcast" || jsIncludes ispLower "att" || jsIncludes ispLower "verizon" then "🏠 Residential ISP"
    else if jsIncludes ispLower "google" || jsIncludes ispLower "aws" || jsIncludes ispLower "azure" then "☁️ Cloud Provider"
    else if jsIncludes ispLower "host" || jsIncludes ispLower "server" then "🏢 Hosting Provider"
    else if jsIncludes ispLower "education" || jsIncludes ispLower "university" then "🎓 Educational"
    else if jsIncludes ispLower "government" || jsIncludes ispLower "gov" then "🏛️ Government"
    else "🌐 Internet Service Provider"

/-- `isMobileCarrier` of the source. -/
def isMobileCarrier (isp : Option String) : String :=
  if !jsTruthyStr isp then "Unknown"
  else
    let kws := ["mobile", "wireless", "cellular", "vodafone", "t-mobile", "verizon wireless"]
    if kws.any (fun k => jsIncludes (jsToLower (jsStr isp)) k) then "📱 Yes" else "❌ No"

/-- `isHostingProvider` of the source. -/
def isHostingProvider (isp : Option String) : String :=
  if !jsTruthyStr isp then "Unknown"
  else
    let kws := ["host", "server", "data center", "cloud", "amazon", "google cloud", "digitalocean", "vultr"]
    if kws.any (fun k => jsIncludes (jsToLower (jsStr isp)) k) then "🏢 Yes" else "❌ No"

/-- Lookup in a static string table by an optional key: an absent key
reads as `undefined`, and an absent entry yields `undefined`. -/
def tableGet (t : List (String × String)) (k : Option String) : Option String :=
  match k with
  | none => none
  | some s => (t.find? (fun p => p.1 == s)).map (fun p => p.2)

/-- The continent table of `getContinent`. -/
def continentsTable : List (String × String) :=
  [("US", "North America 🇺🇸"), ("CA", "North America 🇨🇦"), ("MX", "North America 🇲🇽"),
   ("GB", "Europe 🇬🇧"), ("DE", "Europe 🇩🇪"), ("FR", "Europe 🇫🇷"), ("IT", "Europe 🇮🇹"), ("ES", "Europe 🇪🇸"),
   ("CN", "Asia 🇨🇳"), ("JP", "Asia 🇯🇵"), ("IN", "Asia 🇮🇳"), ("KR", "Asia 🇰🇷"), ("SG", "Asia 🇸🇬"),
   ("BR", "South America 🇧🇷"), ("AR", "South America 🇦🇷"), ("CL", "South America 🇨🇱"),
   ("AU", "Oceania 🇦🇺"), ("NZ", "Oceania 🇳🇿"),
   ("ZA", "Africa 🇿🇦"), ("EG", "Africa 🇪🇬"), ("NG", "Africa 🇳🇬"), ("KE", "Africa 🇰🇪")]

/-- `getContinent` of the source. -/
def getContinent (countryCode : Option String) : String :=
  jsStrOr (tableGet continentsTable countryCode) "Unknown 🌍"

/-- The language table of `getLanguages`. -/
def languagesTable : List (String × String) :=
  [("US", "English 🇺🇸"), ("GB", "English 🇬🇧"), ("CN", "Chinese 🇨🇳"), ("JP", "Japanese 🇯🇵"),
   ("DE", "German 🇩🇪"), ("FR", "French 🇫🇷"), ("ES", "Spanish 🇪🇸"), ("IT", "Italian 🇮🇹"),
   ("IN", "Hindi, English 🇮🇳"), ("BR", "Portuguese 🇧🇷"), ("RU", "Russian 🇷🇺"),
   ("KR", "Korean 🇰🇷"), ("AR", "Arabic 🇸🇦"), ("NL", "Dutch 🇳🇱")]

/-- `getLanguages` of the source. -/
def getLanguages (countryCode : Option String) : String :=
  jsStrOr (tableGet languagesTable countryCode) "Various languages"

/-- The currency table of `getCurrencyInfo`. -/
def currenciesTable : List (String × String) :=
  [("US", "USD 💵"), ("GB", "GBP 💷"), ("EU", "EUR 💶"),
   ("JP", "JPY 💴"), ("CN", "CNY 💰"), ("IN", "INR 💸"),
   ("CA", "CAD 💵"), ("AU", "AUD 💵"), ("CH", "CHF 💵"),
   ("BR", "BRL 💵"), ("RU", "RUB 💵"), ("KR", "KRW 💵")]

/-- `getCurrencyInfo` of the source. -/
def getCurrencyInfo (countryCode : Option String) : String :=
  jsStrOr (tableGet currenciesTable countryCode) "Local currency 💵"

/-- The calling-code table of `getCallingCode`. -/
def callingCodesTable : List (String × String) :=
  [("US", "+1"), ("GB", "+44"), ("CN", "+86"), ("JP", "+81"), ("IN", "+91"),
   ("DE", "+49"), ("FR", "+33"), ("IT", "+39"), ("ES", "+34"), ("BR", "+55")]

/-- `getCallingCode` of the source. -/
def getCallingCode (countryCode : Option String) : String :=
  jsStrOr (tableGet callingCodesTable countryCode) "Unknown"

/-- The emoji table of `getRegionalEmoji`. -/
def regionalEmojisTable : List (String × String) :=
  [("US", "🗽"), ("GB", "👑"), ("CN", "🐉"), ("JP", "🗾"), ("IN", "🐘"),
   ("FR", "🥖"), ("IT", "🍕"), ("DE", "🍺"), ("BR", "💃"), ("AU", "🦘")]

/-- `getRegionalEmoji` of the source. -/
def getRegionalEmoji (countryCode : Option String) : String :=
  jsStrOr (tableGet regionalEmojisTable countryCode) "🌍"

/-- `estimateUsers` of the source. -/
def estimateUsers (asn : Option String) : String :=
  if !jsTruthyStr asn then "Unknown"
  else if jsIncludes (jsStr asn) "AS15169" then "Millions 👑 (Google)"
  else if jsIncludes (jsStr asn) "AS32934" then "Millions 👑 (Facebook)"
  else if jsIncludes (jsStr asn) "AS8075" then "Millions 👑 (Microsoft)"
  else if jsIncludes (jsStr asn) "AS4134" then "Millions 👑 (China Telecom)"
  else "Thousands to Millions 👥"

/-- `classifyNetwork` of the source. -/
def classifyNetwork (ip : String) : String :=
  let fo := firstOctet ip
  if jsLe fo 127 then "Large network 🏢 (16M+ hosts)"
  else if jsLe fo 191 then "Medium network 🏢 (65K hosts)"
  else "Small network 🏠 (254 hosts)"

/-- `classifyNetworkSize` of the source. -/
def classifyNetworkSize (ip : String) : String :=
  let fo := firstOctet ip
  if jsEqV (some fo) 10 then "Very Large 🏢 (Private)"
  else if jsLe fo 127 then "Massive 🌐 (16M hosts)"
  else if jsLe fo 191 then "Large 🏢 (65K hosts)"
  else "Small 🏠 (254 hosts)"

/-- `getTimezoneEmoji` of the source. -/
def getTimezoneEmoji (timezone : Option String) : String :=
  if !jsTruthyStr timezone then "🕒"
  else if jsIncludes (jsStr timezone) "Pacific" then "🌊"
  else if jsIncludes (jsStr timezone) "America" then "🇺🇸"
  else if jsIncludes (jsStr timezone) "Europe" then "🇪🇺"
  else if jsIncludes (jsStr timezone) "Asia" then "🌏"
  else if jsIncludes (jsStr timezone) "Australia" then "🇦🇺"
  else "🕒"

/-- JS falsiness of an optional number: `undefined`, 0 (and NaN, not
representable here) are falsy.  In particular latitude 0 is falsy. -/
def jsFalsyNum : Option Rat → Bool
  | none => true
  | some q => q = 0

/-- `calculateDistanceFromEquator` of the source.  The guard `if (!lat)`
treats latitude 0 as missing. -/
def calculateDistanceFromEquator (lat : Option Rat) : String :=
  if jsFalsyNum lat then "Unknown"
  else
    let distance := |(lat.getD 0)|
    if distance < 10 then "Near equator 🌴"
    else if distance < 30 then "Tropical zone ☀️"
    else if distance < 60 then "Temperate zone 🌸"
    else "Polar zone ❄️"

/-- `getHemisphere` of the source.  The guard `if (!lat)` treats
latitude 0 as missing, so the `lat >= 0` branch is evaluated only for
nonzero latitudes. -/
def getHemisphere (lat : Option Rat) : String :=
  if jsFalsyNum lat then "Unknown"
  else if 0 ≤ lat.getD 0 then "Northern 🌎" else "Southern 🌍"

/-- `getClimateZone` of the source, with the same falsy-zero guard. -/
def getClimateZone (lat : Option Rat) : String :=
  if jsFalsyNum lat then "Unknown"
  else
    let absLat := |(lat.getD 0)|
    if absLat < (47/2 : Rat) then "Tropical 🌴"
    else if absLat < 35 then "Subtropical ☀️"
    else if absLat < 60 then "Temperate 🌸"
    else "Polar ❄️"

/-- `getRandomFunFact` of the source: its fact list.  The random index
`Math.floor(Math.random() * facts.length)` is always below the list
length and is passed in as an explicit parameter. -/
def funFacts : List String :=
  ["🌐 IP stands for Internet Protocol",
   "🔢 IPv4 has 4.3 billion possible addresses",
   "🚀 IPv6 has 340 undecillion possible addresses",
   "📡 The first IP address was 0.0.0.0",
   "🔒 Your IP can reveal your approximate location",
   "🌍 There are IP addresses in space (satellites)",
   "💾 IP addresses are assigned by IANA",
   "🕵️ IP tracing is used for security and analytics"]

/-- `getRandomFunFact` with the random draw made an explicit index. -/
def getRandomFunFact (fi : Nat) : String :=
  funFacts.getD fi "🌐 IP stands for Internet Protocol"

/-- `String.fromCodePoint` on a list of code points: succeeds exactly
when every value is a Unicode scalar value; an out-of-range value
raises, which the caller catches.  The code points produced by
`getCountryFlag` never land in the surrogate gap, where this model is
stricter than JS. -/
def fromCodePoint (ns : List Nat) : Option String :=
  if ns.all (fun n => n < 55296 || (57343 < n && n < 1114112)) then
    some (String.mk (ns.map Char.ofNat))
  else none

/-- `getCountryFlag` of the source: offset each character of the
upper-cased code by 127397 into the regional-indicator block; the
placeholder flag on an absent code or a failed conversion.  Character
codes are UTF-16 units in JS; inputs are treated per Unicode character
here, which agrees on the two-letter codes this function receives. -/
def getCountryFlag (countryCode : Option String) : String :=
  if !jsTruthyStr countryCode then "🏴"
  else
    let codePoints := (jsStr countryCode).data.map (fun c => 127397 + (Char.toUpper c).toNat)
    match fromCodePoint codePoints with
    | some s => s
    | none => "🏴"

/-- The landmark table of `getFamousLandmarks`, keyed by country name. -/
def landmarksTable : List (String × List String) :=
  [("United States", ["Statue of Liberty 🗽", "Golden Gate Bridge 🌉", "White House 🏛️"]),
   ("France", ["Eiffel Tower 🗼", "Louvre Museum 🎨", "Notre Dame Cathedral ⛪"]),
   ("China", ["Great Wall 🐉", "Forbidden City 🏯", "Terracotta Army ⚔️"]),
   ("Japan", ["Mount Fuji 🗻", "Tokyo Tower 🗼", "Fushimi Inari Shrine ⛩️"]),
   ("India", ["Taj Mahal 🕌", "Gateway of India 🏛️", "Red Fort 🏰"]),
   ("United Kingdom", ["Big Ben 🕰️", "London Eye 🎡", "Buckingham Palace 👑"]),
   ("Italy", ["Colosseum 🏛️", "Leaning Tower 🗼", "Venice Canals 🛶"]),
   ("Brazil", ["Christ the Redeemer ✝️", "Amazon Rainforest 🌴", "Copacabana Beach 🏖️"])]

/-! ## JSON values and the upstream record -/

/-- A serialized JSON value, as produced by `res.json`.  There is no
constructor for `undefined`: object fields whose JS value would be
`undefined` are omitted at construction, matching `JSON.stringify`. -/
inductive JSValue where
  | str : String → JSValue
  | num : Rat → JSValue
  | bool : Bool → JSValue
  | null : JSValue
  | arr : List JSValue → JSValue
  | obj : List (String × JSValue) → JSValue
deriving Repr

/-- Field lookup in an object value, `undefined` (`none`) elsewhere. -/
def getField (v : JSValue) (k : String) : Option JSValue :=
  match v with
  | .obj fields => (fields.find? (fun p => p.1 == k)).map (fun p => p.2)
  | _ => none

/-- Two-level field lookup. -/
def getField2 (v : JSValue) (k1 k2 : String) : Option JSValue :=
  match getField v k1 with
  | some w => getField w k2
  | none => none

/-- The keys of an object value, in order. -/
def objKeys (v : JSValue) : Option (List String) :=
  match v with
  | .obj fields => some (fields.map (fun p => p.1))
  | _ => none

/-- An object field holding an optional value: dropped entirely when the
value is absent, as `JSON.stringify` drops `undefined`-valued keys. -/
def optField (k : String) (v : Option JSValue) : List (String × JSValue) :=
  match v with
  | none => []
  | some x => [(k, x)]

/-- The parsed body of a successful upstream reply (the `ipData` object
of the source): every field the handler reads, each possibly absent. -/
structure GeoData where
  status : Option String
  message : Option String
  country : Option String
  countryCode : Option String
  regionName : Option String
  city : Option String
  zip : Option String
  lat : Option Rat
  lon : Option Rat
  timezone : Option String
  offset : Option Rat
  dst : Option Bool
  as : Option String
  org : Option String
  isp : Option String
  reverse : Option String

/-- JS truthiness of an optional boolean. -/
def jsTruthyBool : Option Bool → Bool
  | some b => b
  | none => false

/-- `s.split(' ')[0]`: the characters before the first space. -/
def firstSpaceToken (s : String) : String :=
  String.mk (s.data.takeWhile (fun c => !(c = ' ')))

/-- `getFamousLandmarks` of the source: a bare string when the country
is falsy, otherwise an array from the name-keyed table.  The city
argument is accepted and ignored, as in the source. -/
def getFamousLandmarks (country city : Option String) : JSValue :=
  if !jsTruthyStr country then .str "Unknown"
  else
    match landmarksTable.find? (fun p => p.1 == jsStr country) with
    | some p => .arr (p.2.map .str)
    | none => .arr [.str "Local attractions 🏞️"]

/-- `getSpecialNotes` of the source. -/
def getSpecialNotes (ip : String) (ipData : GeoData) : List String :=
  let notes :=
    (if isPrivateIP ip then ["🔒 Private network IP"] else []) ++
    (if jsTruthyStr ipData.isp && jsIncludes (jsStr ipData.isp) "Google" then ["☁️ Google infrastructure"] else []) ++
    (if jsTruthyStr ipData.isp && jsIncludes (jsStr ipData.isp) "Amazon" then ["☁️ AWS cloud services"] else []) ++
    (if ipData.country = some "United States" then ["🇺🇸 US-based infrastructure"] else []) ++
    (if ipData.country = some "China" then ["🇨🇳 China-based infrastructure"] else [])
  if notes.length = 0 then ["🌐 Standard public IP address"] else notes

/-! ## The response composer (`completeInfo` object of the source)

The structure mirrors the object literal at src/ipinfo.js lines 62-178.
The wall-clock timestamp, the locale-formatted current time and the
random fun-fact index are the three non-pure inputs of the literal and
are passed as explicit parameters `ts`, `lt` and `fi`. -/

/-- Step 1, Basic IP Information. -/
def stepBasic (ip : String) (d : GeoData) : JSValue :=
  .obj ([("ip", .str ip),
         ("status", .str "✅ Valid IPv4 Address"),
         ("version", .str "IPv4"),
         ("type", .str (getIPType ip)),
         ("reverse_dns", .str (jsStrOr d.reverse "Not available"))] ++
        optField "query_status" (d.status.map .str))

/-- The coordinates subobject of step 2. -/
def coordsObj (d : GeoData) : JSValue :=
  .obj (optField "latitude" (d.lat.map .num) ++
        optField "longitude" (d.lon.map .num) ++
        [("accuracy", .str "City level"),
         ("map_url", .str ("https://maps.google.com/?q=" ++ jsNumStr d.lat ++ "," ++ jsNumStr d.lon))])

/-- Step 2, Geolocation Details. -/
def stepGeo (d : GeoData) : JSValue :=
  .obj ([("country", .str (jsStr d.country ++ " " ++ getCountryFlag d.countryCode))] ++
        optField "country_code" (d.countryCode.map .str) ++
        optField "region" (d.regionName.map .str) ++
        optField "city" (d.city.map .str) ++
        optField "zip_code" (d.zip.map .str) ++
        [("coordinates", coordsObj d),
         ("continent", .str (getContinent d.countryCode))])

/-- Step 3, Timezone Information. -/
def stepTimezone (d : GeoData) (lt : String) : JSValue :=
  .obj (optField "timezone" (d.timezone.map .str) ++
        [("current_time", .str lt)] ++
        optField "utc_offset" (d.offset.map .num) ++
        [("is_dst", .str (if jsTruthyBool d.dst then "Yes" else "No")),
         ("timezone_emoji", .str (getTimezoneEmoji d.timezone))])

/-- Step 4, Security Assessment. -/
def stepSecurity (ip : String) : JSValue :=
  .obj [("threat_level", .str "🟡 Medium (Public IP)"),
        ("is_private", .str (if isPrivateIP ip then "✅ Yes" else "❌ No")),
        ("is_reserved", .str (if isReservedIP ip then "✅ Yes" else "❌ No")),
        ("is_bogon", .str (if isBogonIP ip then "✅ Yes" else "❌ No")),
        ("risk_assessment", .str (assessRisk ip)),
        ("recommendations", .arr ((getSecurityRecommendations ip).map .str))]

/-- Step 5, Network Information. -/
def stepNetwork (d : GeoData) : JSValue :=
  .obj [("asn", .str (jsStrOr d.as "Not available")),
        ("organization", .str (jsStrOr d.org "Unknown")),
        ("isp", .str (jsStrOr d.isp "Unknown")),
        ("service_type", .str (classifyISP d.isp)),
        ("network_range", .str (if jsTruthyStr d.as then firstSpaceToken (jsStr d.as) else "Unknown"))]

/-- Step 6, ISP and Organization. -/
def stepIspOrg (ip : String) (d : GeoData) : JSValue :=
  .obj (optField "internet_service_provider" (d.isp.map .str) ++
        optField "organization_name" (d.org.map .str) ++
        optField "autonomous_system" (d.as.map .str) ++
        [("network_type", .str (classifyNetwork ip)),
         ("mobile_carrier", .str (isMobileCarrier d.isp)),
         ("hosting_provider", .str (isHostingProvider d.isp))])

/-- Step 7, Regional Info. -/
def stepRegional (d : GeoData) : JSValue :=
  .obj [("continent", .str (getContinent d.countryCode)),
        ("languages", .str (getLanguages d.countryCode)),
        ("currency", .str (getCurrencyInfo d.countryCode)),
        ("calling_code", .str (getCallingCode d.countryCode)),
        ("regional_emoji", .str (getRegionalEmoji d.countryCode))]

/-- Step 8, Technical Analysis. -/
def stepTechnical (ip : String) (d : GeoData) : JSValue :=
  .obj [("ip_class", .str (getIPType ip)),
        ("estimated_users", .str (estimateUsers d.as)),
        ("network_size", .str (classifyNetworkSize ip)),
        ("routing_status", .str "Global internet routing"),
        ("special_notes", .arr ((getSpecialNotes ip d).map .str))]

/-- Step 9, Distance and Location. -/
def stepDistance (d : GeoData) : JSValue :=
  .obj [("distance_from_equator", .str (calculateDistanceFromEquator d.lat)),
        ("hemisphere", .str (getHemisphere d.lat)),
        ("famous_landmarks", getFamousLandmarks d.country d.city),
        ("climate_zone", .str (getClimateZone d.lat))]

/-- Step 10, Fun Facts and Trivia (an array, not an object). -/
def stepTrivia (d : GeoData) (fi : Nat) : JSValue :=
  .arr [.str ("📍 Located in " ++ jsStr d.city ++ ", " ++ jsStr d.country ++ " " ++ getCountryFlag d.countryCode),
        .str ("🌐 ISP: " ++ jsStrOr d.isp "Unknown"),
        .str ("🕒 Timezone: " ++ jsStr d.timezone),
        .str ("🏢 Organization: " ++ jsStrOr d.org "Not specified"),
        .str ("📡 Network: " ++ jsStrOr d.as "Unknown"),
        .str "💡 IP addresses route internet traffic globally!",
        .str "🔒 Always protect your IP address for security",
        .str ("🌍 This IP is in the " ++ getHemisphere d.lat ++ " hemisphere"),
        .str (getRandomFunFact fi)]

/-- The `steps` object: the ten named sections, in source order. -/
def stepsObj (ip : String) (d : GeoData) (lt : String) (fi : Nat) : JSValue :=
  .obj [("1️⃣ 🌍 Basic IP Information", stepBasic ip d),
        ("2️⃣ 📍 Geolocation Details", stepGeo d),
        ("3️⃣ 🕒 Timezone Information", stepTimezone d lt),
        ("4️⃣ 🛡️ Security Assessment", stepSecurity ip),
        ("5️⃣ 🌐 Network Information", stepNetwork d),
        ("6️⃣ 🏢 ISP & Organization", stepIspOrg ip d),
        ("7️⃣ 💰 Regional Info", stepRegional d),
        ("8️⃣ 📊 Technical Analysis", stepTechnical ip d),
        ("9️⃣ 🎯 Distance & Location", stepDistance d),
        ("🔟 💡 Fun Facts & Trivia", stepTrivia d fi)]

/-- The `summary` block. -/
def summaryObj (ip : String) (d : GeoData) : JSValue :=
  .obj ([("location", .str (jsStrOr d.city "Unknown" ++ ", " ++ jsStrOr d.country "Unknown" ++ " " ++ getCountryFlag d.countryCode)),
         ("isp", .str (jsStrOr d.isp "Unknown")),
         ("coordinates", .str (jsNumStr d.lat ++ ", " ++ jsNumStr d.lon))] ++
        optField "timezone" (d.timezone.map .str) ++
        [("security_level", .str (assessRisk ip)),
         ("status", .str "✅ Analysis complete - 10 steps detailed")])

/-- The `quick_links` block. -/
def quickLinksObj (ip : String) (d : GeoData) : JSValue :=
  .obj [("view_on_map", .str ("https://maps.google.com/?q=" ++ jsNumStr d.lat ++ "," ++ jsNumStr d.lon)),
        ("whois_lookup", .str ("https://whois.domaintools.com/" ++ ip)),
        ("speed_test", .str "https://speedtest.net")]

/-- The full success payload, `completeInfo` of the source. -/
def completeInfo (ip : String) (d : GeoData) (ts lt : String) (fi : Nat) : JSValue :=
  .obj [("success", .bool true),
        ("message", .str "🎉 IP information retrieved successfully!"),
        ("requested_ip", .str ip),
        ("timestamp", .str ts),
        ("api_version", .str "1.0"),
        ("steps", stepsObj ip d lt fi),
        ("summary", summaryObj ip d),
        ("quick_links", quickLinksObj ip d)]

/-! ## The request handler (`module.exports` of the source) -/

/-- The parts of the inbound request the handler reads. -/
structure Request where
  method : String
  queryIp : Option String
  xForwardedFor : Option String
  xRealIp : Option String

/-- The JS `a || b` on optional strings, keeping the first truthy one. -/
def jsOrStrO (a b : Option String) : Option String :=
  if jsTruthyStr a then a else b

/-- `req.headers['x-forwarded-for'] || req.headers['x-real-ip'] ||
'8.8.8.8'`. -/
def headerIp (req : Request) : String :=
  jsStr (jsOrStrO req.xForwardedFor (jsOrStrO req.xRealIp (some "8.8.8.8")))

/-- `s.split(',')[0]`: the characters before the first comma. -/
def takeBeforeComma (s : String) : String :=
  String.mk (s.data.takeWhile (fun c => !(c = ',')))

/-- A JS whitespace character, as trimmed by `String.prototype.trim`. -/
def isJsSpace (c : Char) : Bool :=
  c = ' ' || c = '\t' || c = '\n' || c = '\r'

/-- `String.prototype.trim`. -/
def trimStr (s : String) : String :=
  String.mk (((s.data.dropWhile isJsSpace).reverse.dropWhile isJsSpace).reverse)

/-- Remove the first occurrence of the needle, as
`s.replace(/::ffff:/, '')` does for its literal pattern. -/
def removeFirstL (hay needle : List Char) : List Char :=
  match hay with
  | [] => []
  | c :: t =>
    if needle.isPrefixOf (c :: t) then (c :: t).drop needle.length
    else c :: removeFirstL t needle

/-- The header-derived address after cleanup: first comma-separated
entry, trimmed, with any IPv4-mapped-IPv6 prefix removed. -/
def cleanupHeaderIp (req : Request) : String :=
  String.mk (removeFirstL (trimStr (takeBeforeComma (headerIp req))).data "::ffff:".data)

/-- The address resolver: the `ip` query parameter when truthy,
otherwise the cleaned-up header fallback. -/
def resolveIp (req : Request) : String :=
  if jsTruthyStr req.queryIp then jsStr req.queryIp
  else cleanupHeaderIp req

/-- Outcome of the single outbound call: a parsed reply body, or a
raised transport error (network failure or non-2xx status) with its
message. -/
inductive UpstreamResult where
  | ok (d : GeoData)
  | err (msg : String)

/-- The 400 body for a malformed address. -/
def invalidFormatBody : JSValue :=
  .obj [("error", .str "❌ Invalid IP address format"),
        ("tip", .str "Please provide a valid IPv4 address like 8.8.8.8"),
        ("example", .str "https://your-api.vercel.app/api/ipinfo?ip=8.8.8.8")]

/-- The 405 body for a non-GET, non-OPTIONS method. -/
def methodNotAllowedBody : JSValue :=
  .obj [("error", .str "❌ Method not allowed"),
        ("message", .str "Only GET requests are supported")]

/-- The 400 body for an upstream reply whose status is not success. -/
def upstreamRejectBody (d : GeoData) : JSValue :=
  .obj [("error", .str "❌ Failed to fetch IP information"),
        ("message", .str (jsStrOr d.message "Unknown error"))]

/-- The 500 body for a raised error, carrying `error.message`. -/
def transportErrorBody (msg : String) : JSValue :=
  .obj [("error", .str "🚨 Failed to fetch IP information"),
        ("message", .str msg),
        ("tip", .str "Please check the IP address and try again"),
        ("support", .str "Use format: ?ip=8.8.8.8 or no parameter for your IP")]

/-- The request handler: HTTP status code and serialized body.  The
OPTIONS branch ends the response with an empty body, modelled as
`null`. -/
def handler (req : Request) (upstream : UpstreamResult) (ts lt : String) (fi : Nat) :
    Nat × JSValue :=
  if req.method = "OPTIONS" then (200, .null)
  else if !(req.method = "GET") then (405, methodNotAllowedBody)
  else
    let ip := resolveIp req
    if !ipRegexTest ip then (400, invalidFormatBody)
    else
      match upstream with
      | .err m => (500, transportErrorBody m)
      | .ok d =>
        if !(d.status = some "success") then (400, upstreamRejectBody d)
        else (200, completeInfo ip d ts lt fi)

/-! ## Sample records for concrete evaluations -/

/-- An upstream reply body with every field supplied. -/
def fullGeo : GeoData :=
  { status := some "success", message := none, country := some "United States",
    countryCode := some "US", regionName := some "California", city := some "Mountain View",
    zip := some "94043", lat := some 38, lon := some (-122),
    timezone := some "America/Los_Angeles", offset := some (-25200), dst := some false,
    as := some "AS15169 Google LLC", org := some "Google Public DNS",
    isp := some "Google LLC", reverse := some "dns.google" }

/-- The full reply body with the zip field absent. -/
def zipMissingGeo : GeoData := { fullGeo with zip := none }

/-- An upstream reply body reporting failure. -/
def failGeo : GeoData :=
  { status := some "fail", message := some "invalid query", country := none,
    countryCode := none, regionName := none, city := none, zip := none, lat := none,
    lon := none, timezone := none, offset := none, dst := none, as := none, org := none,
    isp := none, reverse := none }

/-- Every upstream field that the composer passes through without a
default is present.  Under this condition no key of the serialized
payload is dropped. -/
def FullRecord (d : GeoData) : Prop :=
  d.status.isSome ∧ d.countryCode.isSome ∧ d.regionName.isSome ∧ d.city.isSome ∧
  d.zip.isSome ∧ d.lat.isSome ∧ d.lon.isSome ∧ d.timezone.isSome ∧ d.offset.isSome ∧
  d.isp.isSome ∧ d.org.isSome ∧ d.as.isSome

/-! ## Lemmas about the validator regex -/

theorem matchGroup_sound : ∀ {cs r : List Char}, matchGroup cs = some r →
    ∃ g, IsDigitGroup g ∧ cs = g ++ r := by
  intro cs r h
  match cs with
  | [] => simp [matchGroup] at h
  | a :: t =>
    by_cases ha : a.isDigit
    · match t with
      | [] =>
        simp [matchGroup, ha] at h
        exact ⟨[a], ⟨by simp, by simp, by simp [ha]⟩, by simp [← h]⟩
      | b :: t2 =>
        by_cases hb : b.isDigit
        · match t2 with
          | [] =>
            simp [matchGroup, ha, hb] at h
            exact ⟨[a, b], ⟨by simp, by simp, by simp [ha, hb]⟩, by simp [← h]⟩
          | c :: t3 =>
            by_cases hc : c.isDigit
            · simp [matchGroup, ha, hb, hc] at h
              exact ⟨[a, b, c], ⟨by simp, by simp, by simp [ha, hb, hc]⟩, by simp [← h]⟩
            · simp [matchGroup, ha, hb, hc] at h
              exact ⟨[a, b], ⟨by simp, by simp, by simp [ha, hb]⟩, by simp [← h]⟩
        · simp [matchGroup, ha, hb] at h
          exact ⟨[a], ⟨by simp, by simp, by simp [ha]⟩, by simp [← h]⟩
    · simp [matchGroup, ha] at h

theorem matchGroup_complete : ∀ {g r : List Char}, IsDigitGroup g →
    (∀ c t, r = c :: t → c.isDigit = false) →
    matchGroup (g ++ r) = some r := by
  intro g r hg hr
  obtain ⟨hne, hlen, hdig⟩ := hg
  match g with
  | [] => exact absurd rfl hne
  | [a] =>
    have ha := hdig a (by simp)
    match r with
    | [] => simp [matchGroup, ha]
    | c :: t =>
      have hc := hr c t rfl
      simp [matchGroup, ha, hc]
  | [a, b] =>
    have ha := hdig a (by simp)
    have hb := hdig b (by simp)
    match r with
    | [] => simp [matchGroup, ha, hb]
    | c :: t =>
      have hc := hr c t rfl
      simp [matchGroup, ha, hb, hc]
  | [a, b, c] =>
    have ha := hdig a (by simp)
    have hb := hdig b (by simp)
    have hc := hdig c (by simp)
    simp [matchGroup, ha, hb, hc]
  | a :: b :: c :: d :: t => simp at hlen

theorem ipRegexTestL_sound : ∀ {cs : List Char}, ipRegexTestL cs = true →
    ∃ g1 g2 g3 g4, IsDigitGroup g1 ∧ IsDigitGroup g2 ∧ IsDigitGroup g3 ∧ IsDigitGroup g4 ∧
      cs = g1 ++ '.' :: (g2 ++ '.' :: (g3 ++ '.' :: g4)) := by
  intro cs h
  unfold ipRegexTestL at h
  split at h
  next r1 heq1 =>
    split at h
    next r2 heq2 =>
      split at h
      next r3 heq3 =>
        split at h
        next heq4 =>
          obtain ⟨g1, hg1, hcs⟩ := matchGroup_sound heq1
          obtain ⟨g2, hg2, hr1⟩ := matchGroup_sound heq2
          obtain ⟨g3, hg3, hr2⟩ := matchGroup_sound heq3
          obtain ⟨g4, hg4, hr3⟩ := matchGroup_sound heq4
          refine ⟨g1, g2, g3, g4, hg1, hg2, hg3, hg4, ?_⟩
          subst hcs hr1 hr2 hr3
          simp
        next => simp at h
      next => simp at h
    next => simp at h
  next => simp at h

theorem isDigit_ne_dot : ∀ {c : Char}, c.isDigit = true → ¬ c = '.' := by
  intro c h hc
  subst hc
  exact absurd h (by decide)

theorem ipRegexTestL_complete : ∀ {g1 g2 g3 g4 : List Char},
    IsDigitGroup g1 → IsDigitGroup g2 → IsDigitGroup g3 → IsDigitGroup g4 →
    ipRegexTestL (g1 ++ '.' :: (g2 ++ '.' :: (g3 ++ '.' :: g4))) = true := by
  intro g1 g2 g3 g4 h1 h2 h3 h4
  have hdot : ∀ (rest : List Char) (c : Char) (t : List Char),
      ('.' : Char) :: rest = c :: t → c.isDigit = false := by
    intro rest c t hct
    injection hct with hc _
    subst hc
    decide
  have m4 : matchGroup g4 = some [] := by
    have := matchGroup_complete h4 (r := []) (fun c t hct => by cases hct)
    simpa using this
  have m3 : matchGroup (g3 ++ '.' :: g4) = some ('.' :: g4) :=
    matchGroup_complete h3 (hdot g4)
  have m2 : matchGroup (g2 ++ '.' :: (g3 ++ '.' :: g4)) = some ('.' :: (g3 ++ '.' :: g4)) :=
    matchGroup_complete h2 (hdot _)
  have m1 : matchGroup (g1 ++ '.' :: (g2 ++ '.' :: (g3 ++ '.' :: g4))) =
      some ('.' :: (g2 ++ '.' :: (g3 ++ '.' :: g4))) :=
    matchGroup_complete h1 (hdot _)
  simp only [ipRegexTestL, m1, m2, m3, m4]

theorem ipRegexTest_iff_shape : ∀ (s : String),
    ipRegexTest s = true ↔ DottedQuadShape s := by
  intro s
  constructor
  · intro h
    obtain ⟨g1, g2, g3, g4, h1, h2, h3, h4, hcs⟩ := ipRegexTestL_sound h
    exact ⟨g1, g2, g3, g4, h1, h2, h3, h4, hcs⟩
  · rintro ⟨g1, g2, g3, g4, h1, h2, h3, h4, hcs⟩
    show ipRegexTestL s.data = true
    rw [hcs]
    exact ipRegexTestL_complete h1 h2 h3 h4

/-! ## Lemmas about splitting and numeric conversion on validated input -/

theorem splitDot_append : ∀ {g rest : List Char}, (∀ c ∈ g, ¬ c = '.') →
    splitDot (g ++ '.' :: rest) = g :: splitDot rest := by
  intro g rest hg
  induction g with
  | nil => simp [splitDot]
  | cons a t ih =>
    have ha : ¬ a = '.' := hg a (by simp)
    have iht : splitDot (t ++ '.' :: rest) = t :: splitDot rest :=
      ih (fun c hc => hg c (by simp [hc]))
    simp [splitDot, ha, iht]

theorem splitDot_no_dot : ∀ {g : List Char}, (∀ c ∈ g, ¬ c = '.') →
    splitDot g = [g] := by
  intro g hg
  induction g with
  | nil => simp [splitDot]
  | cons a t ih =>
    have ha : ¬ a = '.' := hg a (by simp)
    have iht := ih (fun c hc => hg c (by simp [hc]))
    simp [splitDot, ha, iht]

theorem valid_splitDot : ∀ {cs : List Char}, ipRegexTestL cs = true →
    ∃ g1 g2 g3 g4, IsDigitGroup g1 ∧ IsDigitGroup g2 ∧ IsDigitGroup g3 ∧ IsDigitGroup g4 ∧
      splitDot cs = [g1, g2, g3, g4] := by
  intro cs h
  obtain ⟨g1, g2, g3, g4, h1, h2, h3, h4, hcs⟩ := ipRegexTestL_sound h
  refine ⟨g1, g2, g3, g4, h1, h2, h3, h4, ?_⟩
  subst hcs
  rw [splitDot_append (fun c hc => isDigit_ne_dot (h1.2.2 c hc)),
      splitDot_append (fun c hc => isDigit_ne_dot (h2.2.2 c hc)),
      splitDot_append (fun c hc => isDigit_ne_dot (h3.2.2 c hc)),
      splitDot_no_dot (fun c hc => isDigit_ne_dot (h4.2.2 c hc))]

theorem jsNumber_digits : ∀ {g : List Char}, IsDigitGroup g →
    jsNumber g = some (digitsToNat g) := by
  intro g hg
  obtain ⟨hne, _, hdig⟩ := hg
  simp only [jsNumber, hne, List.all_eq_true, if_false, if_neg hne]
  rw [if_pos hdig]

theorem jsParseInt_digits : ∀ {g : List Char}, IsDigitGroup g →
    jsParseInt g = some (digitsToNat g) := by
  intro g hg
  obtain ⟨hne, _, hdig⟩ := hg
  have htake : g.takeWhile Char.isDigit = g := List.takeWhile_eq_self_iff.mpr hdig
  simp [jsParseInt, htake, hne]

theorem firstOctet_valid : ∀ {s : String}, ipRegexTest s = true →
    ∃ n, firstOctet s = some n := by
  intro s h
  obtain ⟨g1, g2, g3, g4, h1, _, _, _, hsplit⟩ := valid_splitDot h
  refine ⟨digitsToNat g1, ?_⟩
  unfold firstOctet
  rw [hsplit]
  simpa using jsParseInt_digits h1

/-! ## Lemmas about characters and the flag conversion -/

theorem isUpper_toNat_bounds : ∀ {c : Char}, c.isUpper = true →
    (65 : Nat) ≤ c.toNat ∧ c.toNat ≤ 90 := by
  intro c h
  simp only [Char.isUpper, Bool.and_eq_true, decide_eq_true_eq, ge_iff_le,
    UInt32.le_def, BitVec.le_def] at h
  obtain ⟨h1, h2⟩ := h
  simp only [Char.toNat, UInt32.toNat]
  exact ⟨h1, h2⟩

theorem toUpper_of_isUpper : ∀ {c : Char}, c.isUpper = true → c.toUpper = c := by
  intro c h
  obtain ⟨h1, h2⟩ := isUpper_toNat_bounds h
  unfold Char.toUpper
  rw [if_neg]
  rintro ⟨ha, _⟩
  omega

end IpInfo

namespace IpInfo

/-- Claim C1: the spec states that getHemisphere reports southern for
negative latitudes and northern for latitude at least 0, with the zero
boundary inclusive on the northern side.  The source guard `if (!lat)`
treats latitude 0 as falsy, so getHemisphere(0) returns the Unknown
placeholder instead of the northern label, although the `lat >= 0`
test of the same function spells out an inclusive northern boundary.
Nonzero latitudes behave as the spec states. -/
theorem getHemisphere_zero_divergence :
    getHemisphere (some 0) = "Unknown" ∧
    ¬ getHemisphere (some 0) = "Northern 🌎" ∧
    getHemisphere (some (-10)) = "Southern 🌍" ∧
    getHemisphere (some 10) = "Northern 🌎" ∧
    getHemisphere (some 45) = "Northern 🌎" ∧
    getHemisphere (some (-45)) = "Southern 🌍" := by
  refine ⟨by decide, by decide, by decide, by decide, by decide, by decide⟩

/-- Claim C2: the validator accepts exactly the strings made of four
dot-separated groups of one to three decimal digits (the spec-worded
shape `DottedQuadShape`), and any GET request whose resolved address
fails the test is answered with HTTP 400 and the structured invalid
format body, before any upstream interaction. -/
theorem validator_accepts_exactly_dotted_quads :
    ∀ (s : String) (req : Request) (upstream : UpstreamResult) (ts lt : String) (fi : Nat),
      (ipRegexTest s = true ↔ DottedQuadShape s) ∧
      (req.method = "GET" → ipRegexTest (resolveIp req) = false →
        handler req upstream ts lt fi = (400, invalidFormatBody)) := by
  intro s req upstream ts lt fi
  refine ⟨ipRegexTest_iff_shape s, ?_⟩
  intro hm hv
  unfold handler
  simp [hm, hv]

/-- Witness for C2: the all-nines quad is accepted through the shape
characterization even though its octets exceed 255, and a GET request
resolving to a malformed address is answered 400. -/
theorem validator_accepts_exactly_dotted_quads_witness :
    ipRegexTest "999.999.999.999" = true ∧
    handler ⟨"GET", some "abc", none, none⟩ (.err "boom") "t" "l" 0 =
      (400, invalidFormatBody) := by
  have h := validator_accepts_exactly_dotted_quads "999.999.999.999"
    ⟨"GET", some "abc", none, none⟩ (.err "boom") "t" "l" 0
  refine ⟨?_, h.2 rfl (by decide)⟩
  exact h.1.mpr ⟨['9','9','9'], ['9','9','9'], ['9','9','9'], ['9','9','9'],
    ⟨by decide, by decide, by decide⟩, ⟨by decide, by decide, by decide⟩,
    ⟨by decide, by decide, by decide⟩, ⟨by decide, by decide, by decide⟩, by decide⟩


/-- Claim C3: on a GET request with a validated address, an upstream
reply whose status field is not the success marker is answered 400 with
the upstream message when present (the fallback otherwise) and a body
with no steps key, while a raised transport error is answered 500 with
the underlying error message. -/
theorem handler_error_paths :
    ∀ (req : Request) (d : GeoData) (m ts lt : String) (fi : Nat),
      req.method = "GET" →
      ipRegexTest (resolveIp req) = true →
      ((¬ d.status = some "success" →
          handler req (.ok d) ts lt fi = (400, upstreamRejectBody d) ∧
          getField (upstreamRejectBody d) "message" =
            some (.str (jsStrOr d.message "Unknown error")) ∧
          getField (upstreamRejectBody d) "steps" = none) ∧
       (handler req (.err m) ts lt fi = (500, transportErrorBody m) ∧
        getField (transportErrorBody m) "message" = some (.str m))) := by
  intro req d m ts lt fi hm hv
  constructor
  · intro hs
    refine ⟨?_, rfl, rfl⟩
    unfold handler
    simp [hm, hv, hs]
  · refine ⟨?_, rfl⟩
    unfold handler
    simp [hm, hv]

/-- Witness for C3: a failing upstream reply yields the 400 rejection
carrying the upstream message, and a transport error yields the 500
body carrying the error message. -/
theorem handler_error_paths_witness :
    handler ⟨"GET", some "8.8.8.8", none, none⟩ (.ok failGeo) "t" "l" 0 =
      (400, upstreamRejectBody failGeo) ∧
    getField (upstreamRejectBody failGeo) "message" = some (.str "invalid query") ∧
    handler ⟨"GET", some "8.8.8.8", none, none⟩ (.err "network down") "t" "l" 0 =
      (500, transportErrorBody "network down") ∧
    getField (transportErrorBody "network down") "message" = some (.str "network down") := by
  have h := handler_error_paths ⟨"GET", some "8.8.8.8", none, none⟩ failGeo
    "network down" "t" "l" 0 rfl (by decide)
  have h1 := h.1 (by decide)
  exact ⟨h1.1, by rw [h1.2.1]; rfl, h.2.1, h.2.2⟩

/-- Claim C4: assessRisk returns one of exactly four fixed labels and
applies the precedence private, then reserved, then bogon, then
public: a private address reports the private label regardless of the
other predicates, and so on down the chain. -/
theorem assessRisk_precedence :
    ∀ ip : String, ipRegexTest ip = true →
      (assessRisk ip = "🟢 Safe (Private Network)" ∨
       assessRisk ip = "🟡 Caution (Reserved IP)" ∨
       assessRisk ip = "🟡 Warning (Bogon IP)" ∨
       assessRisk ip = "🟡 Moderate (Public IP)") ∧
      (isPrivateIP ip = true → assessRisk ip = "🟢 Safe (Private Network)") ∧
      (isPrivateIP ip = false → isReservedIP ip = true →
        assessRisk ip = "🟡 Caution (Reserved IP)") ∧
      (isPrivateIP ip = false → isReservedIP ip = false → isBogonIP ip = true →
        assessRisk ip = "🟡 Warning (Bogon IP)") ∧
      (isPrivateIP ip = false → isReservedIP ip = false → isBogonIP ip = false →
        assessRisk ip = "🟡 Moderate (Public IP)") := by
  intro ip _
  cases hp : isPrivateIP ip <;> cases hr : isReservedIP ip <;> cases hb : isBogonIP ip <;>
    simp [assessRisk, hp, hr, hb]

/-- Witness for C4: 10.0.0.1 is a valid quad, is private, and reports
the private label. -/
theorem assessRisk_precedence_witness :
    ipRegexTest "10.0.0.1" = true ∧ isPrivateIP "10.0.0.1" = true ∧
    assessRisk "10.0.0.1" = "🟢 Safe (Private Network)" := by
  have h := assessRisk_precedence "10.0.0.1" (by decide)
  exact ⟨by decide, by decide, h.2.1 (by decide)⟩

/-- Claim C5: on every validated address the numeric conversion of the
first dot-separated group succeeds, and getIPType classifies by that
first octet alone with the ladder at 127, 191, 223 and 239. -/
theorem getIPType_by_first_octet :
    ∀ ip : String, ipRegexTest ip = true →
      ∃ n, firstOctet ip = some n ∧
        (n ≤ 127 → getIPType ip = "Class A 🏢 (Large networks)") ∧
        (127 < n → n ≤ 191 → getIPType ip = "Class B 🏢 (Medium networks)") ∧
        (191 < n → n ≤ 223 → getIPType ip = "Class C 🏠 (Small networks)") ∧
        (223 < n → n ≤ 239 → getIPType ip = "Class D 📡 (Multicast)") ∧
        (239 < n → getIPType ip = "Class E 🔧 (Experimental)") := by
  intro ip h
  obtain ⟨n, hn⟩ := firstOctet_valid h
  refine ⟨n, hn, ?_, ?_, ?_, ?_, ?_⟩
  · intro h1
    simp [getIPType, hn, jsLe, h1]
  · intro h1 h2
    simp [getIPType, hn, jsLe, h2, show ¬ n ≤ 127 by omega]
  · intro h1 h2
    simp [getIPType, hn, jsLe, h2, show ¬ n ≤ 127 by omega, show ¬ n ≤ 191 by omega]
  · intro h1 h2
    simp [getIPType, hn, jsLe, h2, show ¬ n ≤ 127 by omega, show ¬ n ≤ 191 by omega,
      show ¬ n ≤ 223 by omega]
  · intro h1
    simp [getIPType, hn, jsLe, show ¬ n ≤ 127 by omega, show ¬ n ≤ 191 by omega,
      show ¬ n ≤ 223 by omega, show ¬ n ≤ 239 by omega]

/-- Witness for C5: 8.8.8.8 has first octet 8 and is Class A. -/
theorem getIPType_by_first_octet_witness :
    ipRegexTest "8.8.8.8" = true ∧
    getIPType "8.8.8.8" = "Class A 🏢 (Large networks)" := by
  obtain ⟨n, hn, hA, _, _, _, _⟩ := getIPType_by_first_octet "8.8.8.8" (by decide)
  have h8 : firstOctet "8.8.8.8" = some 8 := by decide
  rw [h8] at hn
  injection hn with hn8
  exact ⟨by decide, hA (by omega)⟩


/-- Claim C6: for a two-letter code of uppercase basic latin letters,
getCountryFlag offsets each character code by 127397 into the
regional-indicator block, and an absent code yields the placeholder
glyph. -/
theorem getCountryFlag_offsets :
    ∀ (c1 c2 : Char), c1.isUpper = true → c2.isUpper = true →
      getCountryFlag (some (String.mk [c1, c2])) =
        String.mk [Char.ofNat (127397 + c1.toNat), Char.ofNat (127397 + c2.toNat)] ∧
      getCountryFlag none = "🏴" := by
  intro c1 c2 h1 h2
  obtain ⟨l1, u1⟩ := isUpper_toNat_bounds h1
  obtain ⟨l2, u2⟩ := isUpper_toNat_bounds h2
  refine ⟨?_, rfl⟩
  have hne : ¬ (String.mk [c1, c2] = "") := by
    simp [String.ext_iff]
  unfold getCountryFlag
  rw [show jsTruthyStr (some (String.mk [c1, c2])) =
      !(decide (String.mk [c1, c2] = "")) from rfl]
  rw [decide_eq_false hne]
  simp only [Bool.not_false, Bool.not_true, if_false]
  rw [show (jsStr (some (String.mk [c1, c2]))).data = [c1, c2] from rfl]
  simp only [List.map_cons, List.map_nil, toUpper_of_isUpper h1, toUpper_of_isUpper h2]
  have hall : ([127397 + c1.toNat, 127397 + c2.toNat].all
      (fun n => decide (n < 55296) || (decide (57343 < n) && decide (n < 1114112)))) = true := by
    simp only [List.all_cons, List.all_nil, Bool.and_true, Bool.or_eq_true, Bool.and_eq_true,
      decide_eq_true_eq]
    constructor
    · omega
    · omega
  unfold fromCodePoint
  rw [if_pos hall]
  simp

/-- Witness for C6: the code US maps to the two regional indicator
characters forming the US flag, and an absent code to the placeholder. -/
theorem getCountryFlag_offsets_witness :
    getCountryFlag (some "US") = "🇺🇸" ∧ getCountryFlag none = "🏴" :=
  getCountryFlag_offsets 'U' 'S' (by decide) (by decide)

/-- Claim C9: getSecurityRecommendations tests only the private and
reserved predicates, so a bogon address that is neither private nor
reserved receives the same three-item public recommendation list as an
ordinary public address. -/
theorem bogon_recommendations_public :
    ∀ ip : String, ipRegexTest ip = true → isBogonIP ip = true →
      isPrivateIP ip = false → isReservedIP ip = false →
      getSecurityRecommendations ip =
        ["🔒 Use firewall protection", "🛡️ Enable security monitoring", "🌐 Use VPN for privacy"] ∧
      getSecurityRecommendations ip = getSecurityRecommendations "8.8.8.8" := by
  intro ip _ _ hp hr
  have he : getSecurityRecommendations ip =
      ["🔒 Use firewall protection", "🛡️ Enable security monitoring", "🌐 Use VPN for privacy"] := by
    simp [getSecurityRecommendations, hp, hr]
  exact ⟨he, by rw [he]; rfl⟩

/-- Witness for C9: the loopback address 127.0.0.1 is bogon, neither
private nor reserved, and receives the public recommendation list. -/
theorem bogon_recommendations_public_witness :
    isBogonIP "127.0.0.1" = true ∧
    getSecurityRecommendations "127.0.0.1" =
      ["🔒 Use firewall protection", "🛡️ Enable security monitoring", "🌐 Use VPN for privacy"] := by
  have h := bogon_recommendations_public "127.0.0.1" (by decide) (by decide)
    (by decide) (by decide)
  exact ⟨by decide, h.1⟩

/-- Claim C10: under the validator precondition, the octet helpers are
well defined: the split yields exactly four groups, numeric conversion
of every group succeeds (no NaN), the first-group parse succeeds, and
the array reads at indices 0 and 1 find converted numbers. -/
theorem classifiers_total_on_valid :
    ∀ ip : String, ipRegexTest ip = true →
      (splitDot ip.data).length = 4 ∧
      (∀ g ∈ splitDot ip.data, ∃ n, jsNumber g = some n) ∧
      (∃ n, firstOctet ip = some n) ∧
      (∃ a, (getParts ip).get? 0 = some (some a)) ∧
      (∃ b, (getParts ip).get? 1 = some (some b)) := by
  intro ip h
  obtain ⟨g1, g2, g3, g4, h1, h2, h3, h4, hsplit⟩ := valid_splitDot h
  refine ⟨by rw [hsplit]; rfl, ?_, firstOctet_valid h, ?_, ?_⟩
  · intro g hg
    rw [hsplit] at hg
    simp only [List.mem_cons, List.not_mem_nil, or_false] at hg
    rcases hg with rfl | rfl | rfl | rfl
    · exact ⟨_, jsNumber_digits h1⟩
    · exact ⟨_, jsNumber_digits h2⟩
    · exact ⟨_, jsNumber_digits h3⟩
    · exact ⟨_, jsNumber_digits h4⟩
  · exact ⟨digitsToNat g1, by simp [getParts, hsplit, jsNumber_digits h1]⟩
  · exact ⟨digitsToNat g2, by simp [getParts, hsplit, jsNumber_digits h2]⟩

/-- Witness for C10: the helpers are defined on 8.8.8.8. -/
theorem classifiers_total_on_valid_witness :
    (splitDot "8.8.8.8".data).length = 4 ∧
    (∃ a, (getParts "8.8.8.8").get? 0 = some (some a)) := by
  have h := classifiers_total_on_valid "8.8.8.8" (by decide)
  exact ⟨h.1, h.2.2.2.1⟩


/-- Claim C8: in every success payload the threat_level field of the
Security Assessment section is the fixed string, independent of the
address, while for a private, reserved or bogon address the adjacent
risk_assessment field of the same section carries a different label. -/
theorem threat_level_constant :
    ∀ (ip : String) (d : GeoData) (ts lt : String) (fi : Nat),
      getField2 (completeInfo ip d ts lt fi) "steps" "4️⃣ 🛡️ Security Assessment" =
        some (stepSecurity ip) ∧
      getField (stepSecurity ip) "threat_level" = some (.str "🟡 Medium (Public IP)") ∧
      getField (stepSecurity ip) "risk_assessment" = some (.str (assessRisk ip)) ∧
      ((isPrivateIP ip || isReservedIP ip || isBogonIP ip) = true →
        ¬ assessRisk ip = "🟡 Medium (Public IP)") := by
  intro ip d ts lt fi
  refine ⟨rfl, rfl, rfl, ?_⟩
  intro h
  cases hp : isPrivateIP ip <;> cases hr : isReservedIP ip <;> cases hb : isBogonIP ip <;>
    simp [hp, hr, hb] at h ⊢ <;> simp [assessRisk, hp, hr, hb]

/-- Witness for C8: the private address 10.0.0.1 shows the fixed medium
threat level next to the private risk label. -/
theorem threat_level_constant_witness :
    getField (stepSecurity "10.0.0.1") "threat_level" =
      some (.str "🟡 Medium (Public IP)") ∧
    getField (stepSecurity "10.0.0.1") "risk_assessment" =
      some (.str (assessRisk "10.0.0.1")) ∧
    ¬ assessRisk "10.0.0.1" = "🟡 Medium (Public IP)" := by
  have h := threat_level_constant "10.0.0.1" fullGeo "t" "l" 0
  exact ⟨h.2.1, h.2.2.1, h.2.2.2 (by decide)⟩


/-- Claim C7 (amended): the success payload always carries the eight
top-level keys, exactly ten keys under steps, a summary and a
quick_links block, with requested_ip equal to the validated address;
the sections built purely from computed strings always carry their
full key set; the sections that pass optional upstream fields through
without a default carry their full key set when every such field is
present (when one is absent, its key is dropped by serialization
rather than filled with a placeholder). -/
theorem completeInfo_structure :
    ∀ (ip : String) (d : GeoData) (ts lt : String) (fi : Nat),
      objKeys (completeInfo ip d ts lt fi) =
        some ["success", "message", "requested_ip", "timestamp", "api_version",
              "steps", "summary", "quick_links"] ∧
      getField (completeInfo ip d ts lt fi) "requested_ip" = some (.str ip) ∧
      getField (completeInfo ip d ts lt fi) "steps" = some (stepsObj ip d lt fi) ∧
      objKeys (stepsObj ip d lt fi) =
        some ["1️⃣ 🌍 Basic IP Information", "2️⃣ 📍 Geolocation Details",
              "3️⃣ 🕒 Timezone Information", "4️⃣ 🛡️ Security Assessment",
              "5️⃣ 🌐 Network Information", "6️⃣ 🏢 ISP & Organization",
              "7️⃣ 💰 Regional Info", "8️⃣ 📊 Technical Analysis",
              "9️⃣ 🎯 Distance & Location", "🔟 💡 Fun Facts & Trivia"] ∧
      objKeys (stepSecurity ip) =
        some ["threat_level", "is_private", "is_reserved", "is_bogon",
              "risk_assessment", "recommendations"] ∧
      objKeys (stepNetwork d) =
        some ["asn", "organization", "isp", "service_type", "network_range"] ∧
      objKeys (stepRegional d) =
        some ["continent", "languages", "currency", "calling_code", "regional_emoji"] ∧
      objKeys (stepTechnical ip d) =
        some ["ip_class", "estimated_users", "network_size", "routing_status", "special_notes"] ∧
      objKeys (stepDistance d) =
        some ["distance_from_equator", "hemisphere", "famous_landmarks", "climate_zone"] ∧
      (∃ l, stepTrivia d fi = .arr l ∧ l.length = 9) ∧
      objKeys (quickLinksObj ip d) = some ["view_on_map", "whois_lookup", "speed_test"] ∧
      (FullRecord d →
        objKeys (stepBasic ip d) =
          some ["ip", "status", "version", "type", "reverse_dns", "query_status"] ∧
        objKeys (stepGeo d) =
          some ["country", "country_code", "region", "city", "zip_code",
                "coordinates", "continent"] ∧
        objKeys (coordsObj d) = some ["latitude", "longitude", "accuracy", "map_url"] ∧
        objKeys (stepTimezone d lt) =
          some ["timezone", "current_time", "utc_offset", "is_dst", "timezone_emoji"] ∧
        objKeys (stepIspOrg ip d) =
          some ["internet_service_provider", "organization_name", "autonomous_system",
                "network_type", "mobile_carrier", "hosting_provider"] ∧
        objKeys (summaryObj ip d) =
          some ["location", "isp", "coordinates", "timezone", "security_level", "status"]) := by
  intro ip d ts lt fi
  refine ⟨rfl, rfl, rfl, rfl, rfl, rfl, rfl, rfl, rfl, ⟨_, rfl, rfl⟩, rfl, ?_⟩
  rintro ⟨fst, fcc, frn, fci, fzi, fla, flo, ftz, fof, fis, forg, fas⟩
  obtain ⟨st, hst⟩ := Option.isSome_iff_exists.mp fst
  obtain ⟨cc, hcc⟩ := Option.isSome_iff_exists.mp fcc
  obtain ⟨rn, hrn⟩ := Option.isSome_iff_exists.mp frn
  obtain ⟨ci, hci⟩ := Option.isSome_iff_exists.mp fci
  obtain ⟨zi, hzi⟩ := Option.isSome_iff_exists.mp fzi
  obtain ⟨la, hla⟩ := Option.isSome_iff_exists.mp fla
  obtain ⟨lo, hlo⟩ := Option.isSome_iff_exists.mp flo
  obtain ⟨tz, htz⟩ := Option.isSome_iff_exists.mp ftz
  obtain ⟨og, hof⟩ := Option.isSome_iff_exists.mp fof
  obtain ⟨is, his⟩ := Option.isSome_iff_exists.mp fis
  obtain ⟨orr, horg⟩ := Option.isSome_iff_exists.mp forg
  obtain ⟨az, haz⟩ := Option.isSome_iff_exists.mp fas
  refine ⟨?_, ?_, ?_, ?_, ?_, ?_⟩
  · simp [stepBasic, objKeys, optField, hst]
  · simp [stepGeo, objKeys, optField, hcc, hrn, hci, hzi]
  · simp [coordsObj, objKeys, optField, hla, hlo]
  · simp [stepTimezone, objKeys, optField, htz, hof]
  · simp [stepIspOrg, objKeys, optField, his, horg, haz]
  · simp [summaryObj, objKeys, optField, htz]

/-- Witness for C7: on the fully populated sample record every section
carries its complete key set. -/
theorem completeInfo_structure_witness :
    getField (completeInfo "8.8.8.8" fullGeo "t" "l" 0) "requested_ip" =
      some (.str "8.8.8.8") ∧
    objKeys (stepGeo fullGeo) =
      some ["country", "country_code", "region", "city", "zip_code",
            "coordinates", "continent"] ∧
    objKeys (summaryObj "8.8.8.8" fullGeo) =
      some ["location", "isp", "coordinates", "timezone", "security_level", "status"] := by
  have h := completeInfo_structure "8.8.8.8" fullGeo "t" "l" 0
  have hf := h.2.2.2.2.2.2.2.2.2.2.2 ⟨rfl, rfl, rfl, rfl, rfl, rfl, rfl, rfl, rfl, rfl, rfl, rfl⟩
  exact ⟨h.2.1, hf.2.1, hf.2.2.2.2.2⟩

/-- Counterexample for C7 as stated: with the zip field missing from
the upstream record, the serialized Geolocation section of the success
payload for 8.8.8.8 contains no zip_code key at all, placeholder
included, so the structure is not always fully populated. -/
theorem completeInfo_partial_section :
    getField2 (completeInfo "8.8.8.8" zipMissingGeo "t" "l" 0) "steps"
      "2️⃣ 📍 Geolocation Details" = some (stepGeo zipMissingGeo) ∧
    getField (stepGeo zipMissingGeo) "zip_code" = none ∧
    objKeys (stepGeo zipMissingGeo) =
      some ["country", "country_code", "region", "city", "coordinates", "continent"] :=
  ⟨rfl, rfl, rfl⟩

end IpInfo
